import Mathlib

/-!
Verification of the certificate orchestrator of the agglayer repository
(crates/agglayer-aggregator-notifier/src/lib.rs).

The certifier pipeline `AggregatorNotifier::certify` and the epoch packer
`AggregatorNotifier::pack` are embedded shallowly.  External collaborators
(the pending certificate store, the pessimistic-proof library and the
prover backend) are modelled as pure functions bundled in an environment;
effects on the outside world (invoking the prover, inserting a proof into
the store) are recorded in an explicit event trace so that statements such
as "the prover is never invoked" or "no proof is inserted" can be stated
as facts about the trace.
-/

namespace Agglayer

/-- Network identifier (`NetworkId`, a u32 in agglayer-types). -/
abbrev NetworkId := Nat

/-- Certificate height (`Height`, a u64 in agglayer-types). -/
abbrev Height := Nat

/-- A digest (`Hash` in agglayer-types / pessimistic-proof root digests). -/
abbrev Hash := Nat

/-- Identity of a certificate (`CertificateId`). -/
abbrev CertificateId := Hash

/-- A 20-byte address (`pessimistic_proof::Address`). -/
structure Address where
  bytes : List Nat
deriving DecidableEq, Repr

/-- Constructor `Address::new`, from raw bytes. -/
def Address.new (b : List Nat) : Address := ⟨b⟩

/-- The constant written `Address::new([0; 20])` at line 94 of lib.rs. -/
def zeroAddress : Address := Address.new (List.replicate 20 0)

/-- An opaque proof artifact (`agglayer_types::Proof`). -/
structure Proof where
  blob : Nat
deriving DecidableEq, Repr

/-- Modelled from the spec: a `Certificate` carries a transition payload and
a content-derived identity; its contents are opaque to the orchestrator and
are modelled by a single natural number.  (agglayer-types is not under the
sources provided.) -/
structure Certificate where
  contents : Nat
deriving DecidableEq, Repr

/-- Modelled from the spec: `Certificate::hash`, the collision-resistant
content-derived `CertificateId` (computed in agglayer-types, not under the
sources provided); modelled as the identity on the modelled contents, which
is injective. -/
def Certificate.hash (c : Certificate) : CertificateId := c.contents

/-- The local exit tree of a network state; `get_root` returns its root. -/
structure ExitTree where
  root : Hash
deriving DecidableEq, Repr

/-- Method `exit_tree.get_root()` of pessimistic-proof. -/
def ExitTree.get_root (t : ExitTree) : Hash := t.root

/-- The balance tree of a network state, exposing its `root`. -/
structure BalanceTree where
  root : Hash
deriving DecidableEq, Repr

/-- The nullifier set of a network state, exposing its `root`. -/
structure NullifierSet where
  root : Hash
deriving DecidableEq, Repr

/-- `pessimistic_proof::LocalNetworkState`: exit tree, balance tree and
nullifier set, each with a root digest. -/
structure LocalNetworkState where
  exit_tree : ExitTree
  balance_tree : BalanceTree
  nullifier_set : NullifierSet
deriving DecidableEq, Repr

/-- Modelled from the spec: `LocalNetworkStateData` is the stored form of a
network's accumulator state (pessimistic-proof crate, not under the sources
provided); it determines the `LocalNetworkState` obtained by conversion. -/
structure LocalNetworkStateData where
  data : LocalNetworkState
deriving DecidableEq, Repr

/-- Modelled from the spec: the conversion
`LocalNetworkState::from(full_state.clone())` used at line 96 of lib.rs. -/
def LocalNetworkState.ofData (d : LocalNetworkStateData) : LocalNetworkState :=
  d.data

/-- The target state summary of a batch header (exit root, balance root,
nullifier root), as read and written by certify at lines 105 and 112-113. -/
structure StateCommitment where
  exit_root : Hash
  balance_root : Hash
  nullifier_root : Hash
deriving DecidableEq, Repr

/-- The batch header derived from a certificate: origin network id and
target state summary (the only fields certify reads or writes). -/
structure BatchHeader where
  origin_network : NetworkId
  target : StateCommitment
deriving DecidableEq, Repr

/-- Modelled from the spec: `pessimistic_proof::ProofError`, with the
`InvalidFinalLocalExitRoot` sub-case named at line 108 of lib.rs; other
causes are abstracted by a code. -/
inductive ProofError where
  | InvalidFinalLocalExitRoot
  | other (code : Nat)
deriving DecidableEq, Repr

/-- The orchestrator error type (`agglayer_certificate_orchestrator::Error`),
restricted to the variants lib.rs produces; storage-layer errors propagated
by the question-mark operator are folded into `Storage`. -/
inductive Error where
  | CertificateNotFound (network : NetworkId) (height : Height)
  | ProofAlreadyExists (network : NetworkId) (height : Height)
  | NativeExecutionFailed (cause : ProofError)
  | ProverExecutionFailed (cause : Nat)
  | ProofVerificationFailed
  | Storage (code : Nat)
deriving DecidableEq, Repr

/-- Modelled from the spec: the construction-time `NotifierError` (error.rs
is not under the sources provided); invalid backend configuration. -/
inductive NotifierError where
  | invalidConfiguration
deriving DecidableEq, Repr

/-- The result of a successful certification (`CertifierOutput`). -/
structure CertifierOutput where
  certificate : Certificate
  height : Height
  new_state : LocalNetworkState
  network : NetworkId
deriving DecidableEq, Repr

/-- External collaborators of certify, modelled as pure functions: the
pending certificate store (reads and the write-once proof insertion), the
pessimistic-proof library (`into_pessimistic_proof_input`,
`apply_batch_header`, where the mutation of the receiver is modelled by
returning the new state) and the prover backend (`prove`, `verify`).
Store operations return `Except Error` to model the question-mark
propagation of storage errors. -/
structure CertifyEnv where
  get_certificate : NetworkId → Height → Except Error (Option Certificate)
  get_proof : CertificateId → Except Error (Option Proof)
  insert_generated_proof : CertificateId → Proof → Except Error Unit
  into_pessimistic_proof_input :
    Certificate → LocalNetworkStateData → Address → Except Error BatchHeader
  apply_batch_header :
    LocalNetworkState → BatchHeader → Except ProofError LocalNetworkState
  prove : LocalNetworkState → Certificate → Except Nat Proof
  verify : Proof → Except Nat Unit

/-- Observable effects of a certify run: deriving the batch header with a
given trust-anchor signer, handing a proving request to the prover backend,
and inserting a generated proof into the pending certificate store (the
only store mutation in lib.rs). -/
inductive Event where
  | headerDerived (signer : Address)
  | proveRequested (st : LocalNetworkState) (cert : Certificate)
  | proofInserted (id : CertificateId) (pf : Proof)
deriving DecidableEq, Repr

/-- Whether an event is a store mutation (a proof insertion). -/
def Event.isInsert : Event → Bool
  | .proofInserted _ _ => true
  | _ => false

/-- The data captured by the future certify returns: the fetched
certificate, the height, the initial (unmutated) state, the working state
mutated by the simulation, and the batch header after its target roots were
overwritten. -/
structure CertifyPending where
  certificate : Certificate
  height : Height
  initial_state : LocalNetworkState
  state : LocalNetworkState
  batch_header : BatchHeader
deriving DecidableEq, Repr

/-- The synchronous prefix of `AggregatorNotifier::certify` (lib.rs lines
76-118), embedded step for step: fetch the certificate, guard on an
existing proof, derive the batch header with the constant zero signer,
simulate the transition on a clone of the initial state, compare the
declared target exit root against `initial_state.exit_tree.get_root()`,
overwrite the target balance and nullifier roots from `initial_state`, and
hand the proving request to the backend.  The second component is the
event trace of the prefix. -/
def certify (env : CertifyEnv) (full_state : LocalNetworkStateData)
    (network_id : NetworkId) (height : Height) :
    Except Error CertifyPending × List Event :=
  match env.get_certificate network_id height with
  | .error e => (.error e, [])
  | .ok none => (.error (.CertificateNotFound network_id height), [])
  | .ok (some certificate) =>
    match env.get_proof certificate.hash with
    | .error e => (.error e, [])
    | .ok (some _) => (.error (.ProofAlreadyExists network_id height), [])
    | .ok none =>
      match env.into_pessimistic_proof_input certificate full_state zeroAddress with
      | .error e => (.error e, [.headerDerived zeroAddress])
      | .ok batch_header =>
        match env.apply_batch_header (LocalNetworkState.ofData full_state) batch_header with
        | .error e =>
          (.error (.NativeExecutionFailed e), [.headerDerived zeroAddress])
        | .ok state =>
          if batch_header.target.exit_root ≠
              (LocalNetworkState.ofData full_state).exit_tree.get_root then
            (.error (.NativeExecutionFailed .InvalidFinalLocalExitRoot),
             [.headerDerived zeroAddress])
          else
            (.ok { certificate := certificate
                   height := height
                   initial_state := LocalNetworkState.ofData full_state
                   state := state
                   batch_header :=
                     { batch_header with
                       target :=
                         { batch_header.target with
                           balance_root :=
                             (LocalNetworkState.ofData full_state).balance_tree.root
                           nullifier_root :=
                             (LocalNetworkState.ofData full_state).nullifier_set.root } } },
             [.headerDerived zeroAddress,
              .proveRequested (LocalNetworkState.ofData full_state) certificate])

/-- The future returned by certify, driven to completion (lib.rs lines
119-142): await the proving request, verify the proof, and only on
verification success insert it into the pending store and build the
`CertifierOutput`.  The second component is the event trace of the
asynchronous phase. -/
def certifyAwait (env : CertifyEnv) (p : CertifyPending) :
    Except Error CertifierOutput × List Event :=
  match env.prove p.initial_state p.certificate with
  | .error e => (.error (.ProverExecutionFailed e), [])
  | .ok proof =>
    match env.verify proof with
    | .error _ => (.error .ProofVerificationFailed, [])
    | .ok _ =>
      match env.insert_generated_proof p.certificate.hash proof with
      | .error e => (.error e, [])
      | .ok _ =>
        (.ok { certificate := p.certificate
               height := p.height
               new_state := p.state
               network := p.batch_header.origin_network },
         [.proofInserted p.certificate.hash proof])

/-- Settlement events of the epoch packer. -/
inductive PackEvent where
  | settlementSubmitted (index : Nat)
deriving DecidableEq, Repr

/-- `AggregatorNotifier::pack` (lib.rs lines 153-171), embedded step for
step: the items are collected, a debug line is logged, and the returned
future resolves to `Ok(())` immediately — the body marked
`TODO: Submit the settlement tx for each proof` performs no settlement,
so the settlement event trace is empty. -/
def pack {I : Type} (epoch : Nat) (to_pack : List I) :
    Except Error (Except Error Unit × List PackEvent) :=
  .ok (.ok (), [])

/-- The prover configuration (`ProverConfig` in agglayer-config). -/
inductive ProverConfig where
  | SP1Network
  | SP1Local
  | SP1Mock
deriving DecidableEq, Repr

/-- The three sp1-sdk prover implementations selected in `try_new`. -/
inductive ProverVariant where
  | networkProver
  | cpuProver
  | mockProver
deriving DecidableEq, Repr

/-- Modelled from the spec: the embedded proof-circuit binary constant
`ELF` (`include_bytes!` of the pessimistic-proof program); its contents are
opaque and modelled by a placeholder value. -/
def ELF : Nat := 0

/-- The `SP1` prover wrapper: a concrete sp1-sdk prover plus the ELF. -/
structure SP1 where
  prover : ProverVariant
  elf : Nat
deriving DecidableEq, Repr

/-- Constructor `SP1::new(prover, elf)`. -/
def SP1.new (p : ProverVariant) (e : Nat) : SP1 := ⟨p, e⟩

/-- `AggregatorNotifier`: the selected prover and the two store handles. -/
structure AggregatorNotifier (PendingStore StateStore : Type) where
  prover : SP1
  pending_store : PendingStore
  state_store : StateStore

/-- `AggregatorNotifier::try_new` (lib.rs lines 53-67), embedded step for
step: always returns `Ok`, selecting the prover implementation by matching
on the configuration variant. -/
def AggregatorNotifier.try_new {PendingStore StateStore : Type}
    (config : ProverConfig)
    (pending_store : PendingStore) (state_store : StateStore) :
    Except NotifierError (AggregatorNotifier PendingStore StateStore) :=
  .ok { prover :=
          match config with
          | .SP1Network => SP1.new .networkProver ELF
          | .SP1Local => SP1.new .cpuProver ELF
          | .SP1Mock => SP1.new .mockProver ELF
        pending_store := pending_store
        state_store := state_store }

/-- The prover variant named by each configuration variant. -/
def configuredVariant : ProverConfig → ProverVariant
  | .SP1Network => .networkProver
  | .SP1Local => .cpuProver
  | .SP1Mock => .mockProver

/-! Concrete instances used by witnesses and counterexamples. -/

/-- A concrete accumulator state whose three roots are all zero. -/
def fs0 : LocalNetworkStateData := ⟨⟨⟨0⟩, ⟨0⟩, ⟨0⟩⟩⟩

/-- The network state converted from `fs0`. -/
def init0 : LocalNetworkState := ⟨⟨0⟩, ⟨0⟩, ⟨0⟩⟩

/-- The state produced by the concrete simulation below: the exit root has
moved from 0 to 1. -/
def st1 : LocalNetworkState := ⟨⟨1⟩, ⟨0⟩, ⟨0⟩⟩

/-- A concrete certificate. -/
def c0 : Certificate := ⟨0⟩

/-- A concrete batch header whose declared target exit root equals the
initial exit root (0) while the simulated transition moves the root to 1. -/
def bh0 : BatchHeader := ⟨7, ⟨0, 5, 6⟩⟩

/-- A concrete environment: the store holds `c0` and no proof; the derived
batch header is `bh0`; the simulated transition changes the exit root to 1;
proving and verification succeed. -/
def env0 : CertifyEnv where
  get_certificate := fun _ _ => .ok (some c0)
  get_proof := fun _ => .ok none
  insert_generated_proof := fun _ _ => .ok ()
  into_pessimistic_proof_input := fun _ _ _ => .ok bh0
  apply_batch_header := fun st _ => .ok { st with exit_tree := ⟨1⟩ }
  prove := fun _ _ => .ok ⟨42⟩
  verify := fun _ => .ok ()

/-- The pending value certify produces on `env0`. -/
def pending0 : CertifyPending := ⟨c0, 0, init0, st1, ⟨7, ⟨0, 0, 0⟩⟩⟩

/-- The certifier output `certifyAwait` produces on `env0` and `pending0`. -/
def out0 : CertifierOutput := ⟨c0, 0, st1, 7⟩

/-- Like `env0` but the store already holds a proof for every identity. -/
def env1 : CertifyEnv := { env0 with get_proof := fun _ => .ok (some ⟨9⟩) }

/-- Like `env0` but the simulation fails with an abstract cause. -/
def env2 : CertifyEnv :=
  { env0 with apply_batch_header := fun _ _ => .error (.other 3) }

/-- Like `env0` but the store holds no certificate at all. -/
def env3 : CertifyEnv := { env0 with get_certificate := fun _ _ => .ok none }

/-- Like `env0` but proof verification fails. -/
def env4 : CertifyEnv := { env0 with verify := fun _ => .error 1 }

/-- Like `env0` but the header derivation is perturbed at every signer
other than the zero address. -/
def env5 : CertifyEnv :=
  { env0 with
    into_pessimistic_proof_input := fun c s a =>
      if a = zeroAddress then env0.into_pessimistic_proof_input c s a
      else Except.error Error.ProofVerificationFailed }

/-! Theorems. -/

/-- Claim C1: for every (network_id, height) whose certificate is present
in the pending certificate store and for which a proof already exists under
the certificate's content hash, certify returns the error
`ProofAlreadyExists(network_id, height)` synchronously, with an empty event
trace — in particular the prover backend's prove is never invoked. -/
theorem certify_proof_already_exists
    (env : CertifyEnv) (fs : LocalNetworkStateData)
    (n : NetworkId) (hgt : Height) (c : Certificate) (pf : Proof)
    (hc : env.get_certificate n hgt = .ok (some c))
    (hp : env.get_proof c.hash = .ok (some pf)) :
    certify env fs n hgt = (.error (.ProofAlreadyExists n hgt), []) := by
  simp [certify, hc, hp]

/-- Witness for C1: on the concrete environment `env1` a proof already
exists, and certify fails with `ProofAlreadyExists` and an empty trace. -/
theorem certify_proof_already_exists_witness :
    certify env1 fs0 0 0 = (.error (.ProofAlreadyExists 0 0), []) :=
  certify_proof_already_exists env1 fs0 0 0 c0 ⟨9⟩ rfl rfl

/-- Claim C6: for every (network_id, height) for which the pending
certificate store holds no certificate, certify fails synchronously with
`CertificateNotFound(network_id, height)` with an empty event trace — no
store mutation and no proof request. -/
theorem certify_certificate_not_found
    (env : CertifyEnv) (fs : LocalNetworkStateData)
    (n : NetworkId) (hgt : Height)
    (hc : env.get_certificate n hgt = .ok none) :
    certify env fs n hgt = (.error (.CertificateNotFound n hgt), []) := by
  simp [certify, hc]

/-- Witness for C6: on the concrete environment `env3` the store holds no
certificate, and certify fails with `CertificateNotFound`. -/
theorem certify_certificate_not_found_witness :
    certify env3 fs0 0 0 = (.error (.CertificateNotFound 0 0), []) :=
  certify_certificate_not_found env3 fs0 0 0 rfl

/-- Claim C5: whenever the local simulation of the batch header's
transition fails, certify returns `NativeExecutionFailed` carrying the
simulation's cause, and the trace holds only the header derivation — the
prover backend's prove is never invoked. -/
theorem certify_native_execution_failed
    (env : CertifyEnv) (fs : LocalNetworkStateData)
    (n : NetworkId) (hgt : Height) (c : Certificate) (bh : BatchHeader)
    (cause : ProofError)
    (hc : env.get_certificate n hgt = .ok (some c))
    (hp : env.get_proof c.hash = .ok none)
    (hbh : env.into_pessimistic_proof_input c fs zeroAddress = .ok bh)
    (happly : env.apply_batch_header (LocalNetworkState.ofData fs) bh
        = .error cause) :
    certify env fs n hgt
      = (.error (.NativeExecutionFailed cause), [.headerDerived zeroAddress]) := by
  simp [certify, hc, hp, hbh, happly]

/-- Witness for C5: on the concrete environment `env2` the simulation fails
with cause `other 3`, and certify fails with `NativeExecutionFailed` after
only deriving the header. -/
theorem certify_native_execution_failed_witness :
    certify env2 fs0 0 0
      = (.error (.NativeExecutionFailed (.other 3)), [.headerDerived zeroAddress]) :=
  certify_native_execution_failed env2 fs0 0 0 c0 bh0 (.other 3) rfl rfl rfl rfl

/-- Inversion helper shared by several claims: whatever a successful
synchronous phase of certify returns must have come through every guard of
the pipeline, and its fields are determined by the environment. -/
theorem certify_ok_inversion
    (env : CertifyEnv) (fs : LocalNetworkStateData)
    (n : NetworkId) (hgt : Height) (p : CertifyPending)
    (hok : (certify env fs n hgt).1 = .ok p) :
    env.get_certificate n hgt = .ok (some p.certificate) ∧
    env.get_proof p.certificate.hash = .ok none ∧
    p.height = hgt ∧
    p.initial_state = LocalNetworkState.ofData fs ∧
    ∃ bh, env.into_pessimistic_proof_input p.certificate fs zeroAddress = .ok bh ∧
      env.apply_batch_header (LocalNetworkState.ofData fs) bh = .ok p.state ∧
      bh.target.exit_root = (LocalNetworkState.ofData fs).exit_tree.get_root ∧
      p.batch_header = { bh with target := { bh.target with
          balance_root := (LocalNetworkState.ofData fs).balance_tree.root
          nullifier_root := (LocalNetworkState.ofData fs).nullifier_set.root } } := by
  unfold certify at hok
  repeat' split at hok
  all_goals simp_all
  rename_i x3 c hcert x2 hproof x1 bh hbh x0 st happly hroot
  subst hok
  exact ⟨rfl, hproof, rfl, rfl, bh, hbh, happly, hroot, by rw [hroot]⟩

/-- Claim C7: on every certify path that reaches the proof request (that
is, whenever the synchronous phase succeeds), the batch header's target
balance root and target nullifier root equal the balance-tree root and
nullifier-set root of the initial (unmutated) accumulator state, whatever
the derived header claimed for them. -/
theorem certify_target_roots_from_initial_state
    (env : CertifyEnv) (fs : LocalNetworkStateData)
    (n : NetworkId) (hgt : Height) (p : CertifyPending)
    (hok : (certify env fs n hgt).1 = .ok p) :
    p.batch_header.target.balance_root
        = (LocalNetworkState.ofData fs).balance_tree.root ∧
    p.batch_header.target.nullifier_root
        = (LocalNetworkState.ofData fs).nullifier_set.root := by
  obtain ⟨-, -, -, -, bh, -, -, -, hbh⟩ := certify_ok_inversion env fs n hgt p hok
  simp [hbh]

/-- Witness for C7: on the concrete environment `env0` the synchronous
phase succeeds with `pending0`, whose target balance and nullifier roots
are the initial state's roots. -/
theorem certify_target_roots_from_initial_state_witness :
    pending0.batch_header.target.balance_root
        = (LocalNetworkState.ofData fs0).balance_tree.root ∧
    pending0.batch_header.target.nullifier_root
        = (LocalNetworkState.ofData fs0).nullifier_set.root :=
  certify_target_roots_from_initial_state env0 fs0 0 0 pending0 rfl

/-- Inversion helper: a successful run of the asynchronous phase returns
exactly the output built from the pending data. -/
theorem certifyAwait_ok_inversion
    (env : CertifyEnv) (p : CertifyPending) (out : CertifierOutput)
    (hrun : (certifyAwait env p).1 = .ok out) :
    out = { certificate := p.certificate, height := p.height,
            new_state := p.state, network := p.batch_header.origin_network } := by
  unfold certifyAwait at hrun
  repeat' split at hrun
  all_goals simp_all

/-- Claim C9: whenever certify's asynchronous result completes
successfully, the returned output carries exactly the certificate fetched
for (network_id, height), the height argument, the state mutated by the
local simulation as `new_state`, and the batch header's origin network id
as `network`. -/
theorem certify_output_fields
    (env : CertifyEnv) (fs : LocalNetworkStateData)
    (n : NetworkId) (hgt : Height) (p : CertifyPending) (out : CertifierOutput)
    (hsync : (certify env fs n hgt).1 = .ok p)
    (hrun : (certifyAwait env p).1 = .ok out) :
    out.certificate = p.certificate ∧
    env.get_certificate n hgt = .ok (some p.certificate) ∧
    out.height = hgt ∧
    out.new_state = p.state ∧
    (∃ bh, env.into_pessimistic_proof_input p.certificate fs zeroAddress = .ok bh ∧
      env.apply_batch_header (LocalNetworkState.ofData fs) bh = .ok p.state) ∧
    out.network = p.batch_header.origin_network := by
  obtain ⟨hcert, -, hh, -, bh, hbh, happly, -, -⟩ :=
    certify_ok_inversion env fs n hgt p hsync
  have hout := certifyAwait_ok_inversion env p out hrun
  subst hout
  exact ⟨rfl, hcert, hh, rfl, ⟨bh, hbh, happly⟩, rfl⟩

/-- Witness for C9: on the concrete environment `env0` the pipeline
completes with `out0`, which carries the fetched certificate, the height,
the simulated state and the origin network. -/
theorem certify_output_fields_witness :
    out0.certificate = pending0.certificate ∧
    env0.get_certificate 0 0 = .ok (some pending0.certificate) ∧
    out0.height = 0 ∧
    out0.new_state = pending0.state ∧
    (∃ bh, env0.into_pessimistic_proof_input pending0.certificate fs0 zeroAddress
        = .ok bh ∧
      env0.apply_batch_header (LocalNetworkState.ofData fs0) bh
        = .ok pending0.state) ∧
    out0.network = pending0.batch_header.origin_network :=
  certify_output_fields env0 fs0 0 0 pending0 out0 rfl rfl

/-- Claim C3: no store mutation occurs before proof verification succeeds.
The synchronous phase of certify performs no insertion; if verification of
the generated proof fails, the asynchronous result is the error
`ProofVerificationFailed` and its trace is empty; and every insertion event
the asynchronous result ever produces is the insertion, keyed by the
certificate's identity, of a proof the backend generated and verification
accepted. -/
theorem certify_mutation_only_after_verification
    (env : CertifyEnv) (fs : LocalNetworkStateData)
    (n : NetworkId) (hgt : Height) (p : CertifyPending) :
    ((certify env fs n hgt).2.all fun ev => !ev.isInsert) = true ∧
    (∀ pf e, env.prove p.initial_state p.certificate = .ok pf →
      env.verify pf = .error e →
      certifyAwait env p = (.error .ProofVerificationFailed, [])) ∧
    (∀ ev, ev ∈ (certifyAwait env p).2 →
      ∃ pf, env.prove p.initial_state p.certificate = .ok pf ∧
        env.verify pf = .ok () ∧ ev = .proofInserted p.certificate.hash pf) := by
  refine ⟨?_, ?_, ?_⟩
  · unfold certify
    repeat' split
    all_goals simp [Event.isInsert]
  · intro pf e h1 h2
    simp [certifyAwait, h1, h2]
  · intro ev hev
    unfold certifyAwait at hev
    cases h1 : env.prove p.initial_state p.certificate with
    | error e => simp [h1] at hev
    | ok pf =>
      simp only [h1] at hev
      cases h2 : env.verify pf with
      | error e => simp [h2] at hev
      | ok u =>
        cases u
        simp only [h2] at hev
        cases h3 : env.insert_generated_proof p.certificate.hash pf with
        | error e => simp [h3] at hev
        | ok u2 =>
          cases u2
          simp [h3] at hev
          exact ⟨pf, rfl, h2, hev⟩

/-- Witness for C3: on the concrete environment `env4` verification fails,
and the asynchronous result is `ProofVerificationFailed` with an empty
trace — no proof inserted. -/
theorem certify_mutation_only_after_verification_witness :
    certifyAwait env4 pending0 = (.error .ProofVerificationFailed, []) :=
  (certify_mutation_only_after_verification env4 fs0 0 0 pending0).2.1 ⟨42⟩ 1 rfl rfl

/-- Claim C10: the trust-anchor signer certify uses to derive the batch
header is the constant zero address of twenty zero bytes, for every
environment, accumulator state, network and height; consequently two
environments that agree everywhere except possibly on how the header
derivation treats signers other than the zero address produce identical
certify behavior. -/
theorem certify_signer_is_zero_address
    (env : CertifyEnv) (fs : LocalNetworkStateData)
    (n : NetworkId) (hgt : Height) :
    zeroAddress.bytes = List.replicate 20 0 ∧
    (∀ ev ∈ (certify env fs n hgt).2, ∀ s, ev = .headerDerived s → s = zeroAddress) ∧
    (∀ env2 : CertifyEnv,
      env2.get_certificate = env.get_certificate →
      env2.get_proof = env.get_proof →
      env2.insert_generated_proof = env.insert_generated_proof →
      env2.apply_batch_header = env.apply_batch_header →
      env2.prove = env.prove →
      env2.verify = env.verify →
      (∀ c s, env2.into_pessimistic_proof_input c s zeroAddress
        = env.into_pessimistic_proof_input c s zeroAddress) →
      certify env2 fs n hgt = certify env fs n hgt) := by
  refine ⟨rfl, ?_, ?_⟩
  · unfold certify
    repeat' split
    all_goals rintro ev hev s rfl
    all_goals simp_all
  · intro env2 h1 h2 h3 h4 h5 h6 hf
    unfold certify
    rw [h1, h2, h4]
    cases env.get_certificate n hgt with
    | error e => simp
    | ok oc =>
      cases oc with
      | none => simp
      | some c =>
        simp only []
        cases env.get_proof c.hash with
        | error e => simp
        | ok op =>
          cases op with
          | some pf => simp
          | none => simp [hf]

/-- Witness for C10: instantiating the insensitivity part at the concrete
environment `env0` and an environment that disagrees with it at every
nonzero signer. -/
theorem certify_signer_is_zero_address_witness :
    certify env5 fs0 0 0 = certify env0 fs0 0 0 :=
  (certify_signer_is_zero_address env0 fs0 0 0).2.2 env5
    rfl rfl rfl rfl rfl rfl (fun c s => by simp [env5])

/-- Claim C2: evaluation of certify at a concrete input refuting the claim
that a certificate whose declared target exit root differs from the root
produced by simulating its own transition is rejected with
`NativeExecutionFailed(InvalidFinalLocalExitRoot)`.  On `env0` the
simulation moves the exit root from 0 to 1 while the certificate declares
0, yet certify succeeds and hands a proving request to the backend: the
check at line 105 of lib.rs compares the declared root against the initial
(pre-transition) exit root rather than against the simulated result, even
though its own comment describes a mismatch between execution and the
received certificate. -/
theorem certify_accepts_mismatched_simulated_root :
    env0.apply_batch_header init0 bh0 = .ok st1 ∧
    bh0.target.exit_root ≠ st1.exit_tree.get_root ∧
    certify env0 fs0 0 0
      = (.ok pending0, [.headerDerived zeroAddress, .proveRequested init0 c0]) :=
  ⟨rfl, by decide, rfl⟩

/-- Claim C4: evaluation of pack at a concrete nonempty collection,
refuting the claim that pack either settles every item or reports which
failed.  The body is the `TODO` stub of lib.rs lines 166-170: it resolves
to `Ok(())` while submitting no settlement for the item — the item is
silently dropped. -/
theorem pack_returns_ok_without_settling :
    ([c0] : List Certificate) ≠ [] ∧
    pack 0 [c0] = .ok (.ok (), ([] : List PackEvent)) :=
  ⟨by decide, rfl⟩

/-- Claim C8: for every one of the three prover configuration variants and
any pair of store handles, `AggregatorNotifier::try_new` returns `Ok`, and
the prover it selects is exactly the variant named by the configuration,
paired with the embedded ELF. -/
theorem try_new_selects_configured_prover
    (PendingStore StateStore : Type)
    (config : ProverConfig) (ps : PendingStore) (ss : StateStore) :
    AggregatorNotifier.try_new config ps ss
      = .ok { prover := SP1.new (configuredVariant config) ELF
              pending_store := ps
              state_store := ss } := by
  cases config <;> rfl

end Agglayer
